import Mathlib

/-!
Shallow embedding of the Dewab repository (src/dewab_cpp/Dewab.cpp, Dewab.h):
the SupabaseRealtimeClient protocol engine (connection flag, message-ref
counter, heartbeat, channel join tracking, broadcast) and the Dewab command
dispatcher (handleBroadcastCommand).  JSON documents are modelled by an
inductive `Json`; JSON objects by association lists with ArduinoJson member
semantics (first-match lookup, replace-or-append assignment).  Machine
integers: the C++ member `_messageRefCounter` is `unsigned int` (32 bits),
modelled as a Nat kept below 2^32 with explicit wraparound on increment.
Outbound wire messages are represented as `Envelope` values rather than
serialized text; the serialization / transport send steps, which can fail in
the code (serializeJson returning 0, sendTXT returning false), are modelled
by a boolean oracle `SendOracle`.
-/

namespace DewabModel

/-- JSON value, as manipulated through ArduinoJson in the source. -/
inductive Json where
  | jNull : Json
  | jBool : Bool → Json
  | jNum : Int → Json
  | jStr : String → Json
  | jObj : List (String × Json) → Json

/-- A JSON object: ordered association list of members. -/
abbrev JObj := List (String × Json)

/-- Member access obj[key]: first member with the given key (ArduinoJson). -/
def jget (o : JObj) (k : String) : Option Json :=
  match o with
  | [] => none
  | (k1, v) :: rest => if k1 = k then some v else jget rest k

/-- Member assignment obj[key] = v: replace the first member with that key
in place, or append a new member (ArduinoJson semantics). -/
def setKey (o : JObj) (k : String) (v : Json) : JObj :=
  match o with
  | [] => [(k, v)]
  | (k1, v1) :: rest => if k1 = k then (k1, v) :: rest else (k1, v1) :: setKey rest k v

/-- variant.is of a key: the member exists (doc[key].is JsonVariant). -/
def hasKey (o : JObj) (k : String) : Bool :=
  (jget o k).isSome

/-- variant.as const char star: some string iff the value is a string. -/
def asStr : Json → Option String
  | Json.jStr s => some s
  | _ => none

/-- variant.as JsonObjectConst: some object iff the value is an object. -/
def asObj : Json → Option JObj
  | Json.jObj o => some o
  | _ => none

/-- variant.as String: string conversion used by ArduinoJson for scalar
values (only reached on values guarded to exist in the source). -/
def asStringConv : Json → String
  | Json.jStr s => s
  | Json.jNum n => toString n
  | Json.jBool b => cond b "true" "false"
  | Json.jNull => "null"
  | Json.jObj _ => ""

/-- doc[key] on a whole document: member access when the doc is an object. -/
def jsonGet (j : Json) (k : String) : Option Json :=
  match j with
  | Json.jObj o => jget o k
  | _ => none

/-- strncmp(s, p, p.length) == 0: the characters of p are a prefix of
the characters of s. -/
def strStartsWith (s p : String) : Bool :=
  s.data.take p.data.length == p.data

/-- Modulus of the 32-bit unsigned counter `_messageRefCounter`. -/
def UINT_MOD : Nat := 4294967296

/-- `_heartbeatInterval = 25000` (Dewab.h). -/
def heartbeatInterval : Nat := 25000

/-- `unsigned long` subtraction `currentTime - _lastHeartbeatSent` with
32-bit wraparound. -/
def elapsedMs (now last : Nat) : Nat :=
  ((now % UINT_MOD) + UINT_MOD - (last % UINT_MOD)) % UINT_MOD

/-- Outbound protocol envelope (the JsonDocument built by the senders,
before serialization). -/
structure Envelope where
  topic : String
  event : String
  payload : Json
  ref : Option String
  join_ref : Option String

/-- Mutable state of SupabaseRealtimeClient (Dewab.h private members). -/
structure ClientState where
  apiKey : String
  connected : Bool
  /-- beginSSL has been issued and neither a CONNECTED nor a DISCONNECTED
  transport event has arrived since: the transport is opening. -/
  opening : Bool
  messageRefCounter : Nat
  lastHeartbeatSent : Nat
  topicJoinRefs : List (String × String)

/-- Initial state after construction (member initializers in Dewab.h). -/
def initState (apiKey : String) : ClientState :=
  { apiKey := apiKey, connected := false, opening := false,
    messageRefCounter := 1, lastHeartbeatSent := 0, topicJoinRefs := [] }

/-- `String(_messageRefCounter++)`: the current counter as a string, then
increment with 32-bit wraparound. -/
def getNextMessageRef (s : ClientState) : String × ClientState :=
  (toString s.messageRefCounter,
   { s with messageRefCounter := (s.messageRefCounter + 1) % UINT_MOD })

/-- Outcome of serializeJson and webSocket.sendTXT for one send attempt. -/
structure SendOracle where
  serializeOk : Bool
  sendOk : Bool

/-- Result of one client operation: new state, envelopes built (a message
reference was attached), envelopes actually transmitted, error-callback
messages. -/
structure SendOut where
  state : ClientState
  attempts : List Envelope
  sent : List Envelope
  errors : List String

/-- SupabaseRealtimeClient::sendHeartbeat. -/
def sendHeartbeat (s : ClientState) (now : Nat) (o : SendOracle) : SendOut :=
  if s.connected = false then
    ⟨s, [], [], []⟩
  else
    let (ref, s1) := getNextMessageRef s
    let env : Envelope := ⟨"phoenix", "heartbeat", Json.jObj [], some ref, none⟩
    if o.serializeOk = false then
      ⟨s1, [env], [], ["Failed to serialize heartbeat JSON."]⟩
    else if o.sendOk then
      ⟨{ s1 with lastHeartbeatSent := now }, [env], [env], []⟩
    else
      ⟨s1, [env], [], ["WebSocket sendTXT failed for heartbeat."]⟩

/-- The phx_join payload built by SupabaseRealtimeClient::_joinChannel. -/
def joinPayload (apiKey : String) : Json :=
  Json.jObj
    [("access_token", Json.jStr apiKey),
     ("config", Json.jObj
       [("broadcast", Json.jObj [("self", Json.jBool false)]),
        ("presence", Json.jObj [("key", Json.jStr "")]),
        ("private", Json.jBool false)])]

/-- SupabaseRealtimeClient::_joinChannel (private sender). -/
def joinChannelImpl (s : ClientState) (channelTopic : String) (o : SendOracle) : SendOut :=
  if s.connected = false then
    ⟨s, [], [], []⟩
  else
    let (ref, s1) := getNextMessageRef s
    let env : Envelope :=
      ⟨channelTopic, "phx_join", joinPayload s.apiKey, some ref, some ref⟩
    if o.serializeOk = false then
      ⟨s1, [env], [], ["Failed to serialize join JSON for topic: " ++ channelTopic]⟩
    else if o.sendOk then
      ⟨s1, [env], [env], []⟩
    else
      ⟨s1, [env], [], ["WebSocket sendTXT failed for join: " ++ channelTopic]⟩

/-- SupabaseRealtimeClient::joinChannel (public wrapper). -/
def joinChannel (s : ClientState) (topic : String) (o : SendOracle) : SendOut :=
  if s.connected = false then
    ⟨s, [], [], ["Cannot join channel: Not connected."]⟩
  else
    joinChannelImpl s topic o

/-- SupabaseRealtimeClient::broadcast.  Returns the bool result together
with the effects. -/
def broadcast (s : ClientState) (topic event : String) (payload : Json)
    (o : SendOracle) : Bool × SendOut :=
  if s.connected = false then
    (false, ⟨s, [], [], ["Cannot broadcast: Not connected."]⟩)
  else
    match s.topicJoinRefs.lookup topic with
    | none =>
      (false, ⟨s, [], [], ["Cannot broadcast: Not joined to topic " ++ topic]⟩)
    | some joinRef =>
      let (messageRef, s1) := getNextMessageRef s
      let env : Envelope :=
        ⟨topic, "broadcast",
         Json.jObj [("type", Json.jStr "broadcast"), ("event", Json.jStr event),
                    ("payload", payload)],
         some messageRef, some joinRef⟩
      if o.serializeOk = false then
        (false, ⟨s1, [env], [], ["Failed to serialize broadcast JSON for event: " ++ event]⟩)
      else if o.sendOk then
        (true, ⟨s1, [env], [env], []⟩)
      else
        (false, ⟨s1, [env], [], ["WebSocket sendTXT failed for broadcast: " ++ event]⟩)

/-- SupabaseRealtimeClient::loop (webSocket.loop delivers transport events,
modelled separately as WSEvent operations). -/
def loop (s : ClientState) (now : Nat) (o : SendOracle) : SendOut :=
  if s.connected = true ∧ heartbeatInterval ≤ elapsedMs now s.lastHeartbeatSent then
    sendHeartbeat s now o
  else
    ⟨s, [], [], []⟩

/-- Actions issued to the transport collaborator. -/
inductive TransportAction where
  | beginSSL : TransportAction

/-- Result of SupabaseRealtimeClient::connect. -/
structure ConnectOut where
  state : ClientState
  actions : List TransportAction
  errors : List String

/-- SupabaseRealtimeClient::connect: guarded only by the `_connected`
flag; otherwise registers the event handler and issues beginSSL. -/
def connect (s : ClientState) : ConnectOut :=
  if s.connected then
    ⟨s, [], ["Already connected or connecting."]⟩
  else
    ⟨{ s with opening := true }, [TransportAction.beginSSL], []⟩

/-- std::map operator[] assignment on `_topicJoinRefs`: replace the value of
an existing key or insert a new entry. -/
def setStr (m : List (String × String)) (k v : String) : List (String × String) :=
  match m with
  | [] => [(k, v)]
  | (k1, v1) :: rest => if k1 = k then (k1, v) :: rest else (k1, v1) :: setStr rest k v

/-- payload status is the string "ok" (ArduinoJson variant == "ok"). -/
def statusOkOf (p : JObj) : Bool :=
  match jget p "status" with
  | some (Json.jStr s) => s == "ok"
  | _ => false

/-- jsonPayload && jsonPayload status == "ok" on a nullable payload. -/
def statusOk (payload? : Option JObj) : Bool :=
  match payload? with
  | some p => statusOkOf p
  | none => false

/-- The reason string extracted on a failed realtime join reply. -/
def joinFailReason (payload? : Option JObj) : String :=
  match payload? with
  | some p =>
    match jget p "response" with
    | some (Json.jObj ro) =>
      match jget ro "reason" with
      | some v => asStringConv v
      | none => "unknown reason"
    | _ => "unknown reason"
  | none => "unknown reason"

/-- Observable effects of processing one inbound text frame. -/
structure TextFx where
  mapWrites : List (String × String)
  joinedCalls : List (String × String)
  errors : List String
  broadcastCalls : List (String × String × Option JObj)

/-- The generic status-checking branch of webSocketEvent (the block guarded
by jsonPayload having a status member, topic prefixed "realtime:" and event
"phx_reply"). -/
def genericStatusOutcome (topic? event? : Option String) (payload? : Option JObj)
    (ref? : Option String) : TextFx :=
  match payload?, topic?, event? with
  | some p, some t, some e =>
    if hasKey p "status" && strStartsWith t "realtime:" && (e == "phx_reply") then
      if statusOkOf p then
        match ref? with
        | some r => ⟨[(t, r)], [(t, r)], [], []⟩
        | none => ⟨[], [(t, "")], [], []⟩
      else ⟨[], [], [], []⟩
    else ⟨[], [], [], []⟩
  | _, _, _ => ⟨[], [], [], []⟩

/-- The handled if / else-if chain of webSocketEvent: phoenix heartbeat
reply, realtime phx_reply, inbound broadcast (with nested-envelope
unwrapping).  The broadcast callback is always registered by Dewab::begin,
so the `_broadcastCallback` guard is modelled as satisfied. -/
def chainOutcome (topic? event? : Option String) (payload? : Option JObj)
    (ref? : Option String) : TextFx :=
  match topic?, event? with
  | some t, some e =>
    if t == "phoenix" && e == "phx_reply" then
      if statusOk payload? then ⟨[], [], [], []⟩
      else ⟨[], [], ["Phoenix reply not OK."], []⟩
    else if strStartsWith t "realtime:" && e == "phx_reply" then
      if statusOk payload? then
        match ref? with
        | some r => ⟨[(t, r)], [(t, r)], [], []⟩
        | none => ⟨[], [], [], []⟩
      else
        ⟨[], [], ["Join failed for " ++ t ++ ": " ++ joinFailReason payload?], []⟩
    else if e == "broadcast" then
      match payload? with
      | some p =>
        match jget p "type", jget p "event", jget p "payload" with
        | some (Json.jStr ty), some (Json.jStr ev), some (Json.jObj pl) =>
          if ty == "broadcast" then ⟨[], [], [], [(t, ev, some pl)]⟩
          else ⟨[], [], [], [(t, e, some p)]⟩
        | _, _, _ => ⟨[], [], [], [(t, e, some p)]⟩
      | none => ⟨[], [], [], [(t, e, none)]⟩
    else ⟨[], [], [], []⟩
  | _, _ => ⟨[], [], [], []⟩

/-- Result of delivering one transport event to webSocketEvent. -/
structure EventOut where
  state : ClientState
  attempts : List Envelope
  sent : List Envelope
  errors : List String
  joinedCalls : List (String × String)
  broadcastCalls : List (String × String × Option JObj)
  mapWrites : List (String × String)
  connectedCalls : Nat
  disconnectedCalls : Nat

/-- The WStype_TEXT case of webSocketEvent: decode, run the generic status
branch, then the handled chain.  `parsed = none` models a JSON
deserialization failure. -/
def handleText (s : ClientState) (parsed : Option Json) : EventOut :=
  match parsed with
  | none =>
    { state := s, attempts := [], sent := [],
      errors := ["JSON Deserialization failed."], joinedCalls := [],
      broadcastCalls := [], mapWrites := [], connectedCalls := 0, disconnectedCalls := 0 }
  | some doc =>
    let topic? := (jsonGet doc "topic").bind asStr
    let event? := (jsonGet doc "event").bind asStr
    let payload? := (jsonGet doc "payload").bind asObj
    let ref? := (jsonGet doc "ref").bind asStr
    let g := genericStatusOutcome topic? event? payload? ref?
    let c := chainOutcome topic? event? payload? ref?
    let writes := g.mapWrites ++ c.mapWrites
    { state := { s with
        topicJoinRefs := writes.foldl (fun m w => setStr m w.1 w.2) s.topicJoinRefs },
      attempts := [], sent := [],
      errors := g.errors ++ c.errors,
      joinedCalls := g.joinedCalls ++ c.joinedCalls,
      broadcastCalls := g.broadcastCalls ++ c.broadcastCalls,
      mapWrites := writes, connectedCalls := 0, disconnectedCalls := 0 }

/-- Transport events delivered to webSocketEvent. -/
inductive WSEvent where
  | wsDisconnected : WSEvent
  | wsConnected : WSEvent
  | wsText : Option Json → WSEvent
  | wsError : String → WSEvent
  | wsOther : WSEvent

/-- SupabaseRealtimeClient::webSocketEvent. -/
def webSocketEvent (s : ClientState) (now : Nat) (ev : WSEvent) (o : SendOracle) : EventOut :=
  match ev with
  | WSEvent.wsDisconnected =>
    { state := { s with connected := false, opening := false },
      attempts := [], sent := [], errors := [], joinedCalls := [],
      broadcastCalls := [], mapWrites := [], connectedCalls := 0, disconnectedCalls := 1 }
  | WSEvent.wsConnected =>
    let s1 : ClientState :=
      { s with connected := true, opening := false, lastHeartbeatSent := now, messageRefCounter := 1 }
    let hb := sendHeartbeat s1 now o
    { state := hb.state, attempts := hb.attempts, sent := hb.sent, errors := hb.errors,
      joinedCalls := [], broadcastCalls := [], mapWrites := [],
      connectedCalls := 1, disconnectedCalls := 0 }
  | WSEvent.wsText p => handleText s p
  | WSEvent.wsError m =>
    { state := s, attempts := [], sent := [], errors := ["WebSocket Error: " ++ m],
      joinedCalls := [], broadcastCalls := [], mapWrites := [],
      connectedCalls := 0, disconnectedCalls := 0 }
  | WSEvent.wsOther =>
    { state := s, attempts := [], sent := [], errors := [], joinedCalls := [],
      broadcastCalls := [], mapWrites := [], connectedCalls := 0, disconnectedCalls := 0 }

/-- A registered command handler: given the (possibly null) command payload,
returns the success flag and the custom reply data written into the
JsonDocument passed by reference. -/
abbrev Handler := Option JObj → Bool × JObj

/-- The fixed device-command topic of Dewab. -/
def deviceChannel : String := "realtime:arduino-commands"

/-- The default error message when a handler fails without supplying one. -/
def execFailedMsg : String := "Command execution failed on device."

/-- The error message for an unregistered command type. -/
def unknownCmdMsg : String := "Unknown command type or no handler registered on device."

/-- Second-level nested broadcast unwrapping in Dewab::handleBroadcastCommand:
when the payload has a string member type equal to "broadcast" and members
event and payload, the actual command type is the stringified event member
and the actual payload is the inner payload viewed as an object. -/
def unwrapCmd (event : String) (payload : Option JObj) : String × Option JObj :=
  match payload with
  | some p =>
    match jget p "type" with
    | some (Json.jStr ty) =>
      if ty == "broadcast" then
        match jget p "event", jget p "payload" with
        | some ev, some pl => (asStringConv ev, asObj pl)
        | _, _ => (event, payload)
      else (event, payload)
    | _ => (event, payload)
  | none => (event, payload)

/-- The target_device_name filter: drop only when the member exists as a
string and differs from the configured device name. -/
def targetMatches (deviceName : String) (ap : Option JObj) : Bool :=
  match ap with
  | some p =>
    match jget p "target_device_name" with
    | some (Json.jStr t) => t == deviceName
    | _ => true
  | none => true

/-- Reply construction of Dewab::handleBroadcastCommand after the filter:
handler lookup, invocation, and assembly of (reply event, reply payload);
also returns the list of handler invocations performed. -/
def buildReply (registered : List (String × Handler)) (cmdType : String)
    (ap : Option JObj) : (String × JObj) × List (String × Option JObj) :=
  match registered.lookup cmdType with
  | some h =>
    let (success, extras) := h ap
    let rd0 : JObj := setKey [] "original_command" (Json.jStr cmdType)
    let rd1 : JObj := extras.foldl (fun m kv => setKey m kv.1 kv.2) rd0
    if success then
      ((cmdType ++ "_ACK", setKey rd1 "status" (Json.jStr "success")), [(cmdType, ap)])
    else
      let rd2 := setKey rd1 "status" (Json.jStr "error")
      let rd3 := if hasKey rd2 "message" then rd2
                 else setKey rd2 "message" (Json.jStr execFailedMsg)
      ((cmdType ++ "_ERROR", rd3), [(cmdType, ap)])
  | none =>
    ((cmdType ++ "_ERROR",
      setKey (setKey (setKey [] "status" (Json.jStr "error"))
        "message" (Json.jStr unknownCmdMsg)) "original_command" (Json.jStr cmdType)),
     [])

/-- Result of the command dispatcher: reply broadcasts attempted (topic,
event, payload) and handler invocations (command type, payload passed). -/
structure DispatchOut where
  replies : List (String × String × JObj)
  handlerCalls : List (String × Option JObj)

/-- Dewab::handleBroadcastCommand. -/
def handleBroadcastCommand (deviceName : String) (registered : List (String × Handler))
    (topic event : String) (payload : Option JObj) : DispatchOut :=
  if topic == deviceChannel then
    let (cmdType, ap) := unwrapCmd event payload
    if targetMatches deviceName ap then
      let ((re, rp), calls) := buildReply registered cmdType ap
      ⟨[(topic, re, rp)], calls⟩
    else ⟨[], []⟩
  else ⟨[], []⟩

/-- One operation on the client: the public senders, the tick, and a
transport event delivery. -/
inductive ClientOp where
  | opConnect : ClientOp
  | opLoop : Nat → SendOracle → ClientOp
  | opJoin : String → SendOracle → ClientOp
  | opBroadcast : String → String → Json → SendOracle → ClientOp
  | opEvent : Nat → WSEvent → SendOracle → ClientOp

/-- The operation is a transport CONNECTED event (which resets the
message-ref counter, starting a new epoch). -/
def isConnEvent : ClientOp → Bool
  | ClientOp.opEvent _ WSEvent.wsConnected _ => true
  | _ => false

/-- Run one operation: resulting state, envelopes built, envelopes sent. -/
def runOp (s : ClientState) (op : ClientOp) : ClientState × List Envelope × List Envelope :=
  match op with
  | ClientOp.opConnect => ((connect s).state, [], [])
  | ClientOp.opLoop now o =>
    let r := loop s now o
    (r.state, r.attempts, r.sent)
  | ClientOp.opJoin topic o =>
    let r := joinChannel s topic o
    (r.state, r.attempts, r.sent)
  | ClientOp.opBroadcast topic event payload o =>
    let r := (broadcast s topic event payload o).2
    (r.state, r.attempts, r.sent)
  | ClientOp.opEvent now ev o =>
    let r := webSocketEvent s now ev o
    (r.state, r.attempts, r.sent)

/-- Run a list of operations, concatenating the built and sent envelopes. -/
def runOps (s : ClientState) (ops : List ClientOp) : ClientState × List Envelope × List Envelope :=
  match ops with
  | [] => (s, [], [])
  | op :: rest =>
    let r1 := runOp s op
    let r2 := runOps r1.1 rest
    (r2.1, r1.2.1 ++ r2.2.1, r1.2.2 ++ r2.2.2)

/-! ### Helper lemmas on the association-list primitives -/

theorem jget_setKey_self (o : JObj) (k : String) (v : Json) :
    jget (setKey o k v) k = some v := by
  induction o with
  | nil => simp [setKey, jget]
  | cons kv rest ih =>
    obtain ⟨k1, v1⟩ := kv
    by_cases h : k1 = k
    · simp [setKey, jget, h]
    · simp [setKey, jget, h, ih]

theorem jget_setKey_ne (o : JObj) (k k1 : String) (v : Json) (h : k1 ≠ k) :
    jget (setKey o k v) k1 = jget o k1 := by
  induction o with
  | nil => simp [setKey, jget, Ne.symm h]
  | cons kv rest ih =>
    obtain ⟨k2, v2⟩ := kv
    by_cases h2 : k2 = k
    · subst h2
      simp [setKey, jget, Ne.symm h]
    · simp only [setKey, if_neg h2, jget]
      by_cases h3 : k2 = k1
      · simp [h3]
      · simp [h3, ih]

theorem jget_foldl_not_mem (extras : JObj) (m0 : JObj) (k : String)
    (h : k ∉ extras.map Prod.fst) :
    jget (extras.foldl (fun m kv => setKey m kv.1 kv.2) m0) k = jget m0 k := by
  induction extras generalizing m0 with
  | nil => simp
  | cons kv rest ih =>
    simp only [List.map_cons, List.mem_cons, not_or] at h
    simp only [List.foldl_cons]
    rw [ih _ h.2, jget_setKey_ne m0 kv.1 k kv.2 h.1]

theorem jget_foldl_mem (extras : JObj) (m0 : JObj) (k : String) (v : Json)
    (hmem : (k, v) ∈ extras) (hnd : (extras.map Prod.fst).Nodup) :
    jget (extras.foldl (fun m kv => setKey m kv.1 kv.2) m0) k = some v := by
  induction extras generalizing m0 with
  | nil => cases hmem
  | cons kv rest ih =>
    simp only [List.map_cons, List.nodup_cons] at hnd
    rcases List.mem_cons.mp hmem with heq | hrest
    · subst heq
      simp only [List.foldl_cons]
      rw [jget_foldl_not_mem _ _ _ hnd.1, jget_setKey_self]
    · simp only [List.foldl_cons]
      exact ih (setKey m0 kv.1 kv.2) hrest hnd.2

theorem lookup_setStr_self (m : List (String × String)) (k v : String) :
    (setStr m k v).lookup k = some v := by
  induction m with
  | nil => simp [setStr, List.lookup]
  | cons kv rest ih =>
    obtain ⟨k1, v1⟩ := kv
    by_cases h : k1 = k
    · simp [setStr, List.lookup, h]
    · have hne : (k == k1) = false := beq_eq_false_iff_ne.mpr (Ne.symm h)
      simp [setStr, if_neg h, List.lookup, hne, ih]

theorem strStarts_realtime_ne_phoenix {t : String}
    (h : strStartsWith t "realtime:" = true) : (t == "phoenix") = false := by
  by_contra hne
  rw [Bool.not_eq_false] at hne
  rw [eq_of_beq hne] at h
  exact absurd h (by decide)

/-- Effects of webSocketEvent on an inbound decoded document that is a
successful phx_reply on a topic prefixed "realtime:": both the generic
status branch and the realtime chain branch fire.  With a ref, each writes
the binding and invokes the channel-joined callback; without a ref, only
the generic branch invokes the callback (with the empty string) and the
binding map is left untouched. -/
theorem handleText_realtimeReply_ok (s : ClientState) (doc : Json) (t : String)
    (p : JObj) (r? : Option String)
    (h1 : (jsonGet doc "topic").bind asStr = some t)
    (h2 : (jsonGet doc "event").bind asStr = some "phx_reply")
    (h3 : (jsonGet doc "payload").bind asObj = some p)
    (h4 : (jsonGet doc "ref").bind asStr = r?)
    (ht : strStartsWith t "realtime:" = true)
    (hok : jget p "status" = some (Json.jStr "ok")) :
    (handleText s (some doc)).mapWrites
      = (match r? with | some r => [(t, r), (t, r)] | none => []) ∧
    (handleText s (some doc)).joinedCalls
      = (match r? with | some r => [(t, r), (t, r)] | none => [(t, "")]) ∧
    (handleText s (some doc)).state.topicJoinRefs
      = (match r? with
         | some r => setStr (setStr s.topicJoinRefs t r) t r
         | none => s.topicJoinRefs) ∧
    (handleText s (some doc)).errors = [] ∧
    (handleText s (some doc)).broadcastCalls = [] := by
  have hok2 : statusOkOf p = true := by
    simp [statusOkOf, hok]
  have hph := strStarts_realtime_ne_phoenix ht
  cases r? with
  | some r =>
    simp [handleText, h1, h2, h3, h4, genericStatusOutcome, chainOutcome, hasKey, hok,
      hok2, ht, hph, statusOk, setStr]
  | none =>
    simp [handleText, h1, h2, h3, h4, genericStatusOutcome, chainOutcome, hasKey, hok,
      hok2, ht, hph, statusOk, setStr]

/-! ### C3 -/

/-- C3 counterexample: for the inbound envelope with topic "realtime:cmds",
event "phx_reply", payload status "ok" and NO ref field, the claim says
ChannelBinding["realtime:cmds"] is set to the empty string; in the code the
binding map is not written at all (only the channel-joined callback fires
with the empty string), so the binding stays absent. -/
theorem c3_counterexample :
    ((handleText { initState "k" with connected := true }
        (some (Json.jObj [("topic", Json.jStr "realtime:cmds"),
                          ("event", Json.jStr "phx_reply"),
                          ("payload", Json.jObj [("status", Json.jStr "ok")])]))).joinedCalls
       = [("realtime:cmds", "")]) ∧
    ((handleText { initState "k" with connected := true }
        (some (Json.jObj [("topic", Json.jStr "realtime:cmds"),
                          ("event", Json.jStr "phx_reply"),
                          ("payload", Json.jObj [("status", Json.jStr "ok")])]))).state.topicJoinRefs.lookup
        "realtime:cmds" = none) ∧
    ¬ ((handleText { initState "k" with connected := true }
        (some (Json.jObj [("topic", Json.jStr "realtime:cmds"),
                          ("event", Json.jStr "phx_reply"),
                          ("payload", Json.jObj [("status", Json.jStr "ok")])]))).state.topicJoinRefs.lookup
        "realtime:cmds" = some "") := by
  refine ⟨rfl, rfl, ?_⟩
  intro h
  rw [show (handleText { initState "k" with connected := true }
        (some (Json.jObj [("topic", Json.jStr "realtime:cmds"),
                          ("event", Json.jStr "phx_reply"),
                          ("payload", Json.jObj [("status", Json.jStr "ok")])]))).state.topicJoinRefs.lookup
        "realtime:cmds" = none from rfl] at h
  cases h

/-- C3 (amended): for every inbound envelope with event "phx_reply" on a
topic starting with "realtime:" whose payload has status "ok": when the
ref field is present, ChannelBinding[topic] is set to that ref and the
channel-joined callback is invoked with (topic, ref); when the ref field
is absent, the binding map is left unchanged and the callback is invoked
with (topic, "").  In particular the inbound envelope with topic
"realtime:cmds", status ok and ref "7" binds "realtime:cmds" to "7" and
fires the callback with ("realtime:cmds", "7"). -/
theorem c3_channel_binding (s : ClientState) (doc1 doc2 : Json) (t r : String) (p : JObj)
    (h11 : (jsonGet doc1 "topic").bind asStr = some t)
    (h12 : (jsonGet doc1 "event").bind asStr = some "phx_reply")
    (h13 : (jsonGet doc1 "payload").bind asObj = some p)
    (h14 : (jsonGet doc1 "ref").bind asStr = some r)
    (h21 : (jsonGet doc2 "topic").bind asStr = some t)
    (h22 : (jsonGet doc2 "event").bind asStr = some "phx_reply")
    (h23 : (jsonGet doc2 "payload").bind asObj = some p)
    (h24 : (jsonGet doc2 "ref").bind asStr = none)
    (ht : strStartsWith t "realtime:" = true)
    (hok : jget p "status" = some (Json.jStr "ok")) :
    ((handleText s (some doc1)).state.topicJoinRefs.lookup t = some r ∧
     (t, r) ∈ (handleText s (some doc1)).joinedCalls) ∧
    ((handleText s (some doc2)).state.topicJoinRefs = s.topicJoinRefs ∧
     (handleText s (some doc2)).joinedCalls = [(t, "")]) := by
  obtain ⟨hw1, hj1, hm1, -, -⟩ :=
    handleText_realtimeReply_ok s doc1 t p (some r) h11 h12 h13 h14 ht hok
  obtain ⟨hw2, hj2, hm2, -, -⟩ :=
    handleText_realtimeReply_ok s doc2 t p none h21 h22 h23 h24 ht hok
  refine ⟨⟨?_, ?_⟩, ?_, ?_⟩
  · rw [hm1]
    exact lookup_setStr_self _ t r
  · rw [hj1]
    simp
  · rw [hm2]
  · rw [hj2]

/-- C3 witness: the concrete envelope of the spec, with and without ref. -/
theorem c3_witness :
    (((handleText (initState "k")
        (some (Json.jObj [("topic", Json.jStr "realtime:cmds"),
                          ("event", Json.jStr "phx_reply"),
                          ("payload", Json.jObj [("status", Json.jStr "ok")]),
                          ("ref", Json.jStr "7")]))).state.topicJoinRefs.lookup
        "realtime:cmds" = some "7" ∧
      ("realtime:cmds", "7") ∈ (handleText (initState "k")
        (some (Json.jObj [("topic", Json.jStr "realtime:cmds"),
                          ("event", Json.jStr "phx_reply"),
                          ("payload", Json.jObj [("status", Json.jStr "ok")]),
                          ("ref", Json.jStr "7")]))).joinedCalls) ∧
     ((handleText (initState "k")
        (some (Json.jObj [("topic", Json.jStr "realtime:cmds"),
                          ("event", Json.jStr "phx_reply"),
                          ("payload", Json.jObj [("status", Json.jStr "ok")])]))).state.topicJoinRefs
        = (initState "k").topicJoinRefs ∧
      (handleText (initState "k")
        (some (Json.jObj [("topic", Json.jStr "realtime:cmds"),
                          ("event", Json.jStr "phx_reply"),
                          ("payload", Json.jObj [("status", Json.jStr "ok")])]))).joinedCalls
        = [("realtime:cmds", "")])) :=
  c3_channel_binding (initState "k")
    (Json.jObj [("topic", Json.jStr "realtime:cmds"),
                ("event", Json.jStr "phx_reply"),
                ("payload", Json.jObj [("status", Json.jStr "ok")]),
                ("ref", Json.jStr "7")])
    (Json.jObj [("topic", Json.jStr "realtime:cmds"),
                ("event", Json.jStr "phx_reply"),
                ("payload", Json.jObj [("status", Json.jStr "ok")])])
    "realtime:cmds" "7" [("status", Json.jStr "ok")]
    rfl rfl rfl rfl rfl rfl rfl rfl (by decide) rfl

/-! ### C9 -/

/-- C9: for every inbound envelope with event "phx_reply" on a topic
prefixed "realtime:" whose payload has status "ok" and whose ref field is
present, the channel-joined callback is invoked exactly twice (once by the
generic status branch, once by the realtime branch), both times with the
same (topic, ref) arguments, and the binding map is written twice with the
same value. -/
theorem c9_double_callback (s : ClientState) (doc : Json) (t r : String) (p : JObj)
    (h1 : (jsonGet doc "topic").bind asStr = some t)
    (h2 : (jsonGet doc "event").bind asStr = some "phx_reply")
    (h3 : (jsonGet doc "payload").bind asObj = some p)
    (h4 : (jsonGet doc "ref").bind asStr = some r)
    (ht : strStartsWith t "realtime:" = true)
    (hok : jget p "status" = some (Json.jStr "ok")) :
    (handleText s (some doc)).joinedCalls = [(t, r), (t, r)] ∧
    (handleText s (some doc)).mapWrites = [(t, r), (t, r)] ∧
    (handleText s (some doc)).state.topicJoinRefs.lookup t = some r := by
  obtain ⟨hw, hj, hm, -, -⟩ :=
    handleText_realtimeReply_ok s doc t p (some r) h1 h2 h3 h4 ht hok
  refine ⟨hj, hw, ?_⟩
  rw [hm]
  exact lookup_setStr_self _ t r

/-- C9 witness: the concrete join reply with ref "5". -/
theorem c9_witness :
    (handleText (initState "k")
      (some (Json.jObj [("topic", Json.jStr "realtime:arduino-commands"),
                        ("event", Json.jStr "phx_reply"),
                        ("payload", Json.jObj [("status", Json.jStr "ok")]),
                        ("ref", Json.jStr "5")]))).joinedCalls
      = [("realtime:arduino-commands", "5"), ("realtime:arduino-commands", "5")] ∧
    (handleText (initState "k")
      (some (Json.jObj [("topic", Json.jStr "realtime:arduino-commands"),
                        ("event", Json.jStr "phx_reply"),
                        ("payload", Json.jObj [("status", Json.jStr "ok")]),
                        ("ref", Json.jStr "5")]))).mapWrites
      = [("realtime:arduino-commands", "5"), ("realtime:arduino-commands", "5")] ∧
    (handleText (initState "k")
      (some (Json.jObj [("topic", Json.jStr "realtime:arduino-commands"),
                        ("event", Json.jStr "phx_reply"),
                        ("payload", Json.jObj [("status", Json.jStr "ok")]),
                        ("ref", Json.jStr "5")]))).state.topicJoinRefs.lookup
      "realtime:arduino-commands" = some "5" :=
  c9_double_callback (initState "k")
    (Json.jObj [("topic", Json.jStr "realtime:arduino-commands"),
                ("event", Json.jStr "phx_reply"),
                ("payload", Json.jObj [("status", Json.jStr "ok")]),
                ("ref", Json.jStr "5")])
    "realtime:arduino-commands" "5" [("status", Json.jStr "ok")]
    rfl rfl rfl rfl (by decide) rfl

/-! ### C2 -/

/-- C2: broadcast(topic, event, payload) on a topic that has no
ChannelBinding entry, or while not connected, returns false, reports the
failure through the error callback and transmits nothing (no envelope is
even built, and the client state is unchanged). -/
theorem c2_broadcast_unjoined_fails (s : ClientState) (topic event : String)
    (payload : Json) (o : SendOracle)
    (h : s.topicJoinRefs.lookup topic = none ∨ s.connected = false) :
    (broadcast s topic event payload o).1 = false ∧
    (broadcast s topic event payload o).2.sent = [] ∧
    (broadcast s topic event payload o).2.attempts = [] ∧
    (broadcast s topic event payload o).2.errors.length = 1 ∧
    (broadcast s topic event payload o).2.state = s := by
  cases hc : s.connected with
  | false => simp [broadcast, hc]
  | true =>
    rcases h with hl | hfc
    · simp [broadcast, hc, hl]
    · exact absurd hfc (by simp [hc])

/-- C2 witness: broadcasting on the unjoined device channel from the
initial state fails and sends nothing. -/
theorem c2_witness :
    (broadcast (initState "k") "realtime:arduino-commands" "EV" (Json.jObj [])
      ⟨true, true⟩).1 = false ∧
    (broadcast (initState "k") "realtime:arduino-commands" "EV" (Json.jObj [])
      ⟨true, true⟩).2.sent = [] ∧
    (broadcast (initState "k") "realtime:arduino-commands" "EV" (Json.jObj [])
      ⟨true, true⟩).2.attempts = [] ∧
    (broadcast (initState "k") "realtime:arduino-commands" "EV" (Json.jObj [])
      ⟨true, true⟩).2.errors.length = 1 ∧
    (broadcast (initState "k") "realtime:arduino-commands" "EV" (Json.jObj [])
      ⟨true, true⟩).2.state = initState "k" :=
  c2_broadcast_unjoined_fails (initState "k") "realtime:arduino-commands" "EV"
    (Json.jObj []) ⟨true, true⟩ (Or.inl rfl)

/-! ### C7 -/

/-- C7 counterexample: from the Connecting state (connect was issued once
from the initial state, no transport event has arrived: opening and not
connected), a second connect() call initiates the transport open again
(beginSSL is issued) and signals no error, contradicting the claim that
connect() is a no-op signalling an error whenever the state is already
Connecting or Connected. -/
theorem c7_counterexample :
    (connect (initState "k")).state.opening = true ∧
    (connect (initState "k")).state.connected = false ∧
    (connect (connect (initState "k")).state).actions = [TransportAction.beginSSL] ∧
    (connect (connect (initState "k")).state).errors = [] :=
  ⟨rfl, rfl, rfl, rfl⟩

/-- C7 (amended): connect() is a no-op that signals an error only when the
state is already Connected (the code guards only on the `_connected` flag);
whenever the flag is false — including while merely Connecting — connect()
issues a new transport open and signals no error. -/
theorem c7_connect_guard (s : ClientState) :
    (s.connected = true →
      connect s = ⟨s, [], ["Already connected or connecting."]⟩) ∧
    (s.connected = false →
      (connect s).actions = [TransportAction.beginSSL] ∧
      (connect s).errors = [] ∧
      (connect s).state = { s with opening := true }) := by
  constructor
  · intro h
    simp [connect, h]
  · intro h
    simp [connect, h]

/-- C7 witness: the two guard cases at concrete states. -/
theorem c7_witness :
    connect { initState "k" with connected := true } =
      ⟨{ initState "k" with connected := true }, [],
       ["Already connected or connecting."]⟩ ∧
    (connect (initState "k")).actions = [TransportAction.beginSSL] ∧
    (connect (initState "k")).errors = [] :=
  ⟨(c7_connect_guard { initState "k" with connected := true }).1 rfl,
   ((c7_connect_guard (initState "k")).2 rfl).1,
   ((c7_connect_guard (initState "k")).2 rfl).2.1⟩

/-! ### C5 -/

/-- C5: an inbound command on the device-command topic whose (possibly
unwrapped) command type has no registered handler, and which passes the
device-name filter, produces exactly one reply broadcast with event
<type>_ERROR and payload {status:"error", message:"Unknown command type or
no handler registered on device.", original_command:<type>}, and invokes
no handler. -/
theorem c5_unknown_command (deviceName : String) (registered : List (String × Handler))
    (event : String) (payload : Option JObj) (cmdType : String) (ap : Option JObj)
    (hu : unwrapCmd event payload = (cmdType, ap))
    (hf : targetMatches deviceName ap = true)
    (hr : registered.lookup cmdType = none) :
    handleBroadcastCommand deviceName registered deviceChannel event payload =
      ⟨[(deviceChannel, cmdType ++ "_ERROR",
         [("status", Json.jStr "error"), ("message", Json.jStr unknownCmdMsg),
          ("original_command", Json.jStr cmdType)])], []⟩ := by
  simp [handleBroadcastCommand, hu, hf, buildReply, hr, setKey]

/-- C5 witness: the PING example of the spec. -/
theorem c5_witness :
    handleBroadcastCommand "esp32-1" [] deviceChannel "PING"
      (some [("x", Json.jNum 1)]) =
      ⟨[(deviceChannel, "PING_ERROR",
         [("status", Json.jStr "error"), ("message", Json.jStr unknownCmdMsg),
          ("original_command", Json.jStr "PING")])], []⟩ :=
  c5_unknown_command "esp32-1" [] "PING" (some [("x", Json.jNum 1)])
    "PING" (some [("x", Json.jNum 1)]) rfl rfl rfl

/-! ### C6 -/

/-- C6: an inbound command on the device-command topic whose (possibly
unwrapped) payload carries a string target_device_name differing from the
configured device name is dropped: no handler invoked, no reply; when the
field is absent the command is processed as normal (the dispatch proceeds
to reply construction). -/
theorem c6_device_filter (deviceName : String) (registered : List (String × Handler))
    (event : String) (payload : Option JObj) (cmdType : String) :
    (∀ (ap : JObj) (t : String), unwrapCmd event payload = (cmdType, some ap) →
      jget ap "target_device_name" = some (Json.jStr t) → t ≠ deviceName →
      handleBroadcastCommand deviceName registered deviceChannel event payload
        = ⟨[], []⟩) ∧
    (∀ ap : JObj, unwrapCmd event payload = (cmdType, some ap) →
      jget ap "target_device_name" = none →
      handleBroadcastCommand deviceName registered deviceChannel event payload
        = ⟨[(deviceChannel, (buildReply registered cmdType (some ap)).1.1,
             (buildReply registered cmdType (some ap)).1.2)],
           (buildReply registered cmdType (some ap)).2⟩) := by
  constructor
  · intro ap t hu hjt hne
    have hfm : targetMatches deviceName (some ap) = false := by
      simp [targetMatches, hjt, beq_iff_eq, hne]
    simp [handleBroadcastCommand, hu, hfm]
  · intro ap hu hjt
    have hfm : targetMatches deviceName (some ap) = true := by
      simp [targetMatches, hjt]
    rcases hbr : buildReply registered cmdType (some ap) with ⟨⟨re, rp⟩, calls⟩
    simp [handleBroadcastCommand, hu, hfm, hbr]

/-- C6 witness: the SET_LED example of the spec with the device configured
as esp32-2: the nested command targets esp32-1, so it is dropped. -/
theorem c6_witness :
    handleBroadcastCommand "esp32-2"
      [("SET_LED", fun _ => (true, [("led", Json.jStr "on")]))]
      deviceChannel "broadcast"
      (some [("type", Json.jStr "broadcast"), ("event", Json.jStr "SET_LED"),
             ("payload", Json.jObj [("target_device_name", Json.jStr "esp32-1"),
                                    ("on", Json.jBool true)])])
      = ⟨[], []⟩ :=
  (c6_device_filter "esp32-2"
      [("SET_LED", fun _ => (true, [("led", Json.jStr "on")]))]
      "broadcast"
      (some [("type", Json.jStr "broadcast"), ("event", Json.jStr "SET_LED"),
             ("payload", Json.jObj [("target_device_name", Json.jStr "esp32-1"),
                                    ("on", Json.jBool true)])])
      "SET_LED").1
    [("target_device_name", Json.jStr "esp32-1"), ("on", Json.jBool true)]
    "esp32-1" rfl rfl (by decide)

/-! ### C4 -/

/-- Reply construction when a handler is registered: the reply event is
<type>_ACK or <type>_ERROR according to the success flag; the payload holds
original_command, the handler-supplied fields, the status, and on failure a
default message when the handler supplied none. -/
theorem buildReply_found (registered : List (String × Handler)) (cmdType : String)
    (ap : Option JObj) (h : Handler) (success : Bool) (extras : JObj)
    (hr : registered.lookup cmdType = some h)
    (hh : h ap = (success, extras))
    (hnd : (extras.map Prod.fst).Nodup)
    (hoc : "original_command" ∉ extras.map Prod.fst)
    (hst : "status" ∉ extras.map Prod.fst) :
    ∃ rp : JObj,
      buildReply registered cmdType ap
        = ((cmdType ++ (if success then "_ACK" else "_ERROR"), rp), [(cmdType, ap)]) ∧
      jget rp "original_command" = some (Json.jStr cmdType) ∧
      jget rp "status" = some (Json.jStr (if success then "success" else "error")) ∧
      (∀ kv ∈ extras, jget rp kv.1 = some kv.2) ∧
      (success = false → "message" ∉ extras.map Prod.fst →
        jget rp "message" = some (Json.jStr execFailedMsg)) := by
  have f_oc : jget (extras.foldl (fun m kv => setKey m kv.1 kv.2)
      (setKey [] "original_command" (Json.jStr cmdType))) "original_command"
      = some (Json.jStr cmdType) := by
    rw [jget_foldl_not_mem _ _ _ hoc, jget_setKey_self]
  have f_ex : ∀ kv ∈ extras, jget (extras.foldl (fun m kv => setKey m kv.1 kv.2)
      (setKey [] "original_command" (Json.jStr cmdType))) kv.1 = some kv.2 := by
    intro kv hkv
    exact jget_foldl_mem extras _ kv.1 kv.2 (by rw [Prod.mk.eta]; exact hkv) hnd
  have kv_ne_st : ∀ kv : String × Json, kv ∈ extras → kv.1 ≠ "status" := by
    intro kv hkv he
    exact hst (he ▸ List.mem_map_of_mem Prod.fst hkv)
  cases success with
  | true =>
    refine ⟨setKey (extras.foldl (fun m kv => setKey m kv.1 kv.2)
      (setKey [] "original_command" (Json.jStr cmdType))) "status" (Json.jStr "success"),
      ?_, ?_, ?_, ?_, ?_⟩
    · simp [buildReply, hr, hh]
    · rw [jget_setKey_ne _ _ _ _ (by decide), f_oc]
    · rw [jget_setKey_self]
      rfl
    · intro kv hkv
      rw [jget_setKey_ne _ _ _ _ (kv_ne_st kv hkv), f_ex kv hkv]
    · intro hfalse
      cases hfalse
  | false =>
    by_cases hm : "message" ∈ extras.map Prod.fst
    · obtain ⟨kv0, hkv0, hkv0f⟩ := List.mem_map.mp hm
      have f_msg : jget (extras.foldl (fun m kv => setKey m kv.1 kv.2)
          (setKey [] "original_command" (Json.jStr cmdType))) "message" = some kv0.2 := by
        rw [← hkv0f]
        exact f_ex kv0 hkv0
      have hhk : hasKey (setKey (extras.foldl (fun m kv => setKey m kv.1 kv.2)
          (setKey [] "original_command" (Json.jStr cmdType))) "status"
          (Json.jStr "error")) "message" = true := by
        rw [hasKey, jget_setKey_ne _ _ _ _ (by decide), f_msg]
        rfl
      refine ⟨setKey (extras.foldl (fun m kv => setKey m kv.1 kv.2)
        (setKey [] "original_command" (Json.jStr cmdType))) "status" (Json.jStr "error"),
        ?_, ?_, ?_, ?_, ?_⟩
      · simp [buildReply, hr, hh, hhk]
      · rw [jget_setKey_ne _ _ _ _ (by decide), f_oc]
      · rw [jget_setKey_self]
        rfl
      · intro kv hkv
        rw [jget_setKey_ne _ _ _ _ (kv_ne_st kv hkv), f_ex kv hkv]
      · intro _ hmsg
        exact absurd hm hmsg
    · have f_nomsg : jget (extras.foldl (fun m kv => setKey m kv.1 kv.2)
          (setKey [] "original_command" (Json.jStr cmdType))) "message" = none := by
        rw [jget_foldl_not_mem _ _ _ hm, jget_setKey_ne _ _ _ _ (by decide)]
        rfl
      have hhk : hasKey (setKey (extras.foldl (fun m kv => setKey m kv.1 kv.2)
          (setKey [] "original_command" (Json.jStr cmdType))) "status"
          (Json.jStr "error")) "message" = false := by
        rw [hasKey, jget_setKey_ne _ _ _ _ (by decide), f_nomsg]
        rfl
      refine ⟨setKey (setKey (extras.foldl (fun m kv => setKey m kv.1 kv.2)
        (setKey [] "original_command" (Json.jStr cmdType))) "status" (Json.jStr "error"))
        "message" (Json.jStr execFailedMsg), ?_, ?_, ?_, ?_, ?_⟩
      · simp [buildReply, hr, hh, hhk]
      · rw [jget_setKey_ne _ _ _ _ (by decide), jget_setKey_ne _ _ _ _ (by decide), f_oc]
      · rw [jget_setKey_ne _ _ _ _ (by decide), jget_setKey_self]
        rfl
      · intro kv hkv
        have hne_msg : kv.1 ≠ "message" := by
          intro he
          exact hm (he ▸ List.mem_map_of_mem Prod.fst hkv)
        rw [jget_setKey_ne _ _ _ _ hne_msg, jget_setKey_ne _ _ _ _ (kv_ne_st kv hkv),
          f_ex kv hkv]
      · intro _ _
        rw [jget_setKey_self]

/-- C4: an inbound command on the device-command topic whose (possibly
unwrapped) type has a registered handler, and which passes the device-name
filter, invokes the handler exactly once and produces exactly one reply
broadcast on the same topic: event <type>_ACK with status "success" on
handler success, else <type>_ERROR with status "error"; the reply payload
carries original_command = <type> and every handler-supplied extra field,
and on error without a handler-supplied message field the message defaults
to "Command execution failed on device.". -/
theorem c4_handler_reply (deviceName : String) (registered : List (String × Handler))
    (event : String) (payload : Option JObj) (cmdType : String) (ap : Option JObj)
    (h : Handler) (success : Bool) (extras : JObj)
    (hu : unwrapCmd event payload = (cmdType, ap))
    (hf : targetMatches deviceName ap = true)
    (hr : registered.lookup cmdType = some h)
    (hh : h ap = (success, extras))
    (hnd : (extras.map Prod.fst).Nodup)
    (hoc : "original_command" ∉ extras.map Prod.fst)
    (hst : "status" ∉ extras.map Prod.fst) :
    ∃ rp : JObj,
      (handleBroadcastCommand deviceName registered deviceChannel event payload).replies
        = [(deviceChannel, cmdType ++ (if success then "_ACK" else "_ERROR"), rp)] ∧
      (handleBroadcastCommand deviceName registered deviceChannel event payload).handlerCalls
        = [(cmdType, ap)] ∧
      jget rp "original_command" = some (Json.jStr cmdType) ∧
      jget rp "status" = some (Json.jStr (if success then "success" else "error")) ∧
      (∀ kv ∈ extras, jget rp kv.1 = some kv.2) ∧
      (success = false → "message" ∉ extras.map Prod.fst →
        jget rp "message" = some (Json.jStr execFailedMsg)) := by
  obtain ⟨rp, hbr, hocv, hstv, hexv, hmsgv⟩ :=
    buildReply_found registered cmdType ap h success extras hr hh hnd hoc hst
  refine ⟨rp, ?_, ?_, hocv, hstv, hexv, hmsgv⟩
  · simp [handleBroadcastCommand, hu, hf, hbr]
  · simp [handleBroadcastCommand, hu, hf, hbr]

/-- C4 witness: the SET_LED example of the spec — nested broadcast payload
targeting esp32-1, handler for SET_LED returning success with extra field
led:"on" — yields exactly one SET_LED_ACK reply carrying original_command,
status success and the extra field. -/
theorem c4_witness :
    ∃ rp : JObj,
      (handleBroadcastCommand "esp32-1"
        [("SET_LED", fun _ => (true, [("led", Json.jStr "on")]))]
        deviceChannel "broadcast"
        (some [("type", Json.jStr "broadcast"), ("event", Json.jStr "SET_LED"),
               ("payload", Json.jObj [("target_device_name", Json.jStr "esp32-1"),
                                      ("on", Json.jBool true)])])).replies
        = [(deviceChannel, "SET_LED" ++ (if true then "_ACK" else "_ERROR"), rp)] ∧
      (handleBroadcastCommand "esp32-1"
        [("SET_LED", fun _ => (true, [("led", Json.jStr "on")]))]
        deviceChannel "broadcast"
        (some [("type", Json.jStr "broadcast"), ("event", Json.jStr "SET_LED"),
               ("payload", Json.jObj [("target_device_name", Json.jStr "esp32-1"),
                                      ("on", Json.jBool true)])])).handlerCalls
        = [("SET_LED", some [("target_device_name", Json.jStr "esp32-1"),
                             ("on", Json.jBool true)])] ∧
      jget rp "original_command" = some (Json.jStr "SET_LED") ∧
      jget rp "status" = some (Json.jStr (if true then "success" else "error")) ∧
      (∀ kv ∈ [("led", Json.jStr "on")], jget rp kv.1 = some kv.2) ∧
      (true = false → "message" ∉ [("led", Json.jStr "on")].map Prod.fst →
        jget rp "message" = some (Json.jStr execFailedMsg)) :=
  c4_handler_reply "esp32-1"
    [("SET_LED", fun _ => (true, [("led", Json.jStr "on")]))]
    "broadcast"
    (some [("type", Json.jStr "broadcast"), ("event", Json.jStr "SET_LED"),
           ("payload", Json.jObj [("target_device_name", Json.jStr "esp32-1"),
                                  ("on", Json.jBool true)])])
    "SET_LED"
    (some [("target_device_name", Json.jStr "esp32-1"), ("on", Json.jBool true)])
    (fun _ => (true, [("led", Json.jStr "on")])) true [("led", Json.jStr "on")]
    rfl rfl rfl rfl (by decide) (by decide) (by decide)

/-! ### Per-operation lemmas about message-reference consumption -/

theorem sendHeartbeat_notconn (s : ClientState) (now : Nat) (o : SendOracle)
    (hc : s.connected = false) : sendHeartbeat s now o = ⟨s, [], [], []⟩ := by
  simp [sendHeartbeat, hc]

theorem sendHeartbeat_spec (s : ClientState) (now : Nat) (o : SendOracle)
    (hc : s.connected = true) :
    (sendHeartbeat s now o).attempts.map Envelope.ref
      = [some (toString s.messageRefCounter)] ∧
    (sendHeartbeat s now o).state.messageRefCounter
      = (s.messageRefCounter + 1) % UINT_MOD ∧
    (sendHeartbeat s now o).sent.Sublist (sendHeartbeat s now o).attempts := by
  obtain ⟨so, ko⟩ := o
  cases so <;> cases ko <;> simp [sendHeartbeat, getNextMessageRef, hc]

theorem handleText_no_send (s : ClientState) (p : Option Json) :
    (handleText s p).attempts = [] ∧ (handleText s p).sent = [] ∧
    (handleText s p).state.messageRefCounter = s.messageRefCounter := by
  cases p <;> simp [handleText]

theorem runOp_spec (s : ClientState) (op : ClientOp) (h : isConnEvent op = false) :
    (runOp s op).2.2.Sublist (runOp s op).2.1 ∧
    (((runOp s op).2.1 = [] ∧
      (runOp s op).1.messageRefCounter = s.messageRefCounter) ∨
     ((runOp s op).2.1.map Envelope.ref = [some (toString s.messageRefCounter)] ∧
      (runOp s op).1.messageRefCounter = (s.messageRefCounter + 1) % UINT_MOD)) := by
  cases op with
  | opConnect =>
    by_cases hc : s.connected <;> simp [runOp, connect, hc]
  | opLoop now o =>
    by_cases hc : (s.connected = true ∧ heartbeatInterval ≤ elapsedMs now s.lastHeartbeatSent)
    · obtain ⟨h1, h2, h3⟩ := sendHeartbeat_spec s now o hc.1
      simp only [runOp, loop, if_pos hc]
      exact ⟨h3, Or.inr ⟨h1, h2⟩⟩
    · simp [runOp, loop, if_neg hc]
  | opJoin topic o =>
    cases hc : s.connected with
    | false => simp [runOp, joinChannel, hc]
    | true =>
      obtain ⟨so, ko⟩ := o
      cases so <;> cases ko <;>
        simp [runOp, joinChannel, joinChannelImpl, getNextMessageRef, hc]
  | opBroadcast topic event payload o =>
    cases hc : s.connected with
    | false => simp [runOp, broadcast, hc]
    | true =>
      cases hl : s.topicJoinRefs.lookup topic with
      | none => simp [runOp, broadcast, hc, hl]
      | some jr =>
        obtain ⟨so, ko⟩ := o
        cases so <;> cases ko <;>
          simp [runOp, broadcast, getNextMessageRef, hc, hl]
  | opEvent now ev o =>
    cases ev with
    | wsConnected => simp [isConnEvent] at h
    | wsDisconnected => simp [runOp, webSocketEvent]
    | wsError m => simp [runOp, webSocketEvent]
    | wsOther => simp [runOp, webSocketEvent]
    | wsText p =>
      obtain ⟨h1, h2, h3⟩ := handleText_no_send s p
      simp only [runOp, webSocketEvent]
      exact ⟨by rw [h1, h2], Or.inl ⟨h1, h3⟩⟩

/-- Over any run that contains no transport CONNECTED event, the references
attached to the envelopes built are consecutive, starting at the current
counter value, the transmitted envelopes form a sublist of the built ones,
and the counter advances by the number of envelopes built. -/
theorem runOps_refs (ops : List ClientOp) :
    ∀ s : ClientState, (∀ op ∈ ops, isConnEvent op = false) →
    s.messageRefCounter < UINT_MOD →
    s.messageRefCounter + ops.length ≤ UINT_MOD →
    (runOps s ops).2.1.map Envelope.ref
      = (List.range' s.messageRefCounter (runOps s ops).2.1.length).map
          (fun n => some (toString n)) ∧
    (runOps s ops).2.2.Sublist (runOps s ops).2.1 ∧
    (runOps s ops).1.messageRefCounter
      = (s.messageRefCounter + (runOps s ops).2.1.length) % UINT_MOD := by
  induction ops with
  | nil =>
    intro s _ hlt _
    simp [runOps, Nat.mod_eq_of_lt hlt]
  | cons op rest ih =>
    intro s hops hlt hbound
    have hbound' : s.messageRefCounter + (rest.length + 1) ≤ UINT_MOD := by
      simpa using hbound
    have hop := runOp_spec s op (hops op (List.mem_cons_self op rest))
    rcases hrr : runOp s op with ⟨s1, a1, t1⟩
    rw [hrr] at hop
    obtain ⟨hsub1, hcase⟩ := hop
    rcases hcase with ⟨ha1, hc1⟩ | ⟨ha1, hc1⟩
    · -- no reference drawn by this operation
      subst ha1
      have hrest := ih s1 (fun op2 h2 => hops op2 (List.mem_cons_of_mem op h2))
        (by rw [hc1]; exact hlt)
        (by rw [hc1]; exact le_trans (by simp [Nat.add_le_add_iff_left]) hbound)
      rcases hrr2 : runOps s1 rest with ⟨s2, a2, t2⟩
      rw [hrr2] at hrest
      obtain ⟨hr1, hr2, hr3⟩ := hrest
      have ht1 : t1 = [] := List.sublist_nil.mp hsub1
      subst ht1
      simp only [runOps, hrr, hrr2, List.nil_append]
      exact ⟨by rw [hr1, hc1], hr2, by rw [hr3, hc1]⟩
    · -- one reference drawn by this operation
      have hlen1 : a1.length = 1 := by
        have := congrArg List.length ha1
        simpa using this
      by_cases hwrap : s.messageRefCounter + 1 < UINT_MOD
      · have hc1lt : s1.messageRefCounter = s.messageRefCounter + 1 := by
          rw [hc1, Nat.mod_eq_of_lt hwrap]
        have hrest := ih s1 (fun op2 h2 => hops op2 (List.mem_cons_of_mem op h2))
          (by rw [hc1lt]; exact hwrap)
          (by rw [hc1lt]; omega)
        rcases hrr2 : runOps s1 rest with ⟨s2, a2, t2⟩
        rw [hrr2] at hrest
        obtain ⟨hr1, hr2, hr3⟩ := hrest
        simp only [runOps, hrr, hrr2]
        refine ⟨?_, hsub1.append hr2, ?_⟩
        · rw [List.map_append, ha1, hr1, hc1lt, List.length_append, hlen1]
          rw [show 1 + a2.length = a2.length + 1 from Nat.add_comm 1 a2.length,
            List.range'_succ]
          simp
        · rw [hr3, hc1lt, List.length_append, hlen1, Nat.add_assoc]
      · -- the counter would wrap: the bound forces the rest to be empty
        have hrest0 : rest.length = 0 := by omega
        have hrest : rest = [] := List.length_eq_zero.mp hrest0
        subst hrest
        simp only [runOps, hrr, List.append_nil]
        refine ⟨?_, hsub1, ?_⟩
        · rw [ha1, hlen1, List.range'_one]
          simp
        · rw [hc1, hlen1]

/-! ### C1 -/

theorem wsConnected_spec (s : ClientState) (now : Nat) (o : SendOracle) :
    (webSocketEvent s now WSEvent.wsConnected o).attempts.map Envelope.ref
      = [some (toString 1)] ∧
    (webSocketEvent s now WSEvent.wsConnected o).state.messageRefCounter = 2 ∧
    (webSocketEvent s now WSEvent.wsConnected o).state.messageRefCounter < UINT_MOD ∧
    (webSocketEvent s now WSEvent.wsConnected o).sent.Sublist
      (webSocketEvent s now WSEvent.wsConnected o).attempts := by
  obtain ⟨so, ko⟩ := o
  cases so <;> cases ko <;>
    simp [webSocketEvent, sendHeartbeat, getNextMessageRef, UINT_MOD]

/-- C1: on every transition into Connected the message-ref counter is reset
and the immediately sent heartbeat carries reference "1"; every envelope
subsequently assembled for a send in the same epoch (no further CONNECTED
transition; heartbeat, join or broadcast alike) carries a reference exactly
one greater than the previous one, so the references attached within one
epoch are toString of 1, 2, 3, ... in order.  (The bound keeps the epoch
shorter than the 32-bit counter range, where the counter would wrap.) -/
theorem c1_epoch_refs_consecutive (s : ClientState) (now : Nat) (o : SendOracle)
    (ops : List ClientOp)
    (hops : ∀ op ∈ ops, isConnEvent op = false)
    (hlen : 2 + ops.length ≤ UINT_MOD) :
    ((webSocketEvent s now WSEvent.wsConnected o).attempts
      ++ (runOps (webSocketEvent s now WSEvent.wsConnected o).state ops).2.1).map
        Envelope.ref
      = (List.range' 1
          (((webSocketEvent s now WSEvent.wsConnected o).attempts
            ++ (runOps (webSocketEvent s now WSEvent.wsConnected o).state ops).2.1).length)).map
          (fun n => some (toString n)) := by
  obtain ⟨h1, h2, h3, _⟩ := wsConnected_spec s now o
  have hlen1 : (webSocketEvent s now WSEvent.wsConnected o).attempts.length = 1 := by
    have := congrArg List.length h1
    simpa using this
  have hrest := runOps_refs ops (webSocketEvent s now WSEvent.wsConnected o).state
    hops (by rw [h2]; rw [h2] at h3; exact h3) (by rw [h2]; exact hlen)
  obtain ⟨hr1, -, -⟩ := hrest
  rw [List.map_append, h1, hr1, h2, List.length_append, hlen1]
  rw [show 1 + (runOps (webSocketEvent s now WSEvent.wsConnected o).state ops).2.1.length
        = (runOps (webSocketEvent s now WSEvent.wsConnected o).state ops).2.1.length + 1
      from Nat.add_comm _ _, List.range'_succ]
  simp

/-- C1 witness: connect event then one heartbeat tick: the built envelopes
carry references "1" then "2". -/
theorem c1_witness :
    ((webSocketEvent (initState "k") 0 WSEvent.wsConnected ⟨true, true⟩).attempts
      ++ (runOps (webSocketEvent (initState "k") 0 WSEvent.wsConnected ⟨true, true⟩).state
            [ClientOp.opLoop 30000 ⟨true, true⟩]).2.1).map Envelope.ref
      = (List.range' 1
          (((webSocketEvent (initState "k") 0 WSEvent.wsConnected ⟨true, true⟩).attempts
            ++ (runOps (webSocketEvent (initState "k") 0 WSEvent.wsConnected ⟨true, true⟩).state
                  [ClientOp.opLoop 30000 ⟨true, true⟩]).2.1).length)).map
          (fun n => some (toString n)) :=
  c1_epoch_refs_consecutive (initState "k") 0 ⟨true, true⟩
    [ClientOp.opLoop 30000 ⟨true, true⟩]
    (by
      intro op hop
      rcases List.mem_singleton.mp hop with rfl
      rfl)
    (by decide)

/-! ### C8 -/

/-- C8: a heartbeat is never transmitted from a state that is not
Connected — indeed no operation transmits anything at all from such a
state (the CONNECTED transport event excepted, which first enters the
Connected state and only then sends its heartbeat).  While Connected, once
the fixed 25000 ms interval has elapsed, the tick builds exactly the
envelope {topic:"phoenix", event:"heartbeat", payload:{}, ref:<next ref>}
and, when serialization and the transport send succeed, transmits exactly
it and restarts the interval; before the interval has elapsed the tick
sends nothing. -/
theorem c8_heartbeat_only_connected (now : Nat) (o : SendOracle) :
    (∀ (s : ClientState) (op : ClientOp), s.connected = false →
      isConnEvent op = false → (runOp s op).2.2 = []) ∧
    (∀ s : ClientState, s.connected = true →
      heartbeatInterval ≤ elapsedMs now s.lastHeartbeatSent →
      (loop s now o).attempts
        = [⟨"phoenix", "heartbeat", Json.jObj [],
            some (toString s.messageRefCounter), none⟩] ∧
      (o.serializeOk = true → o.sendOk = true →
        (loop s now o).sent
          = [⟨"phoenix", "heartbeat", Json.jObj [],
              some (toString s.messageRefCounter), none⟩] ∧
        (loop s now o).state.lastHeartbeatSent = now)) ∧
    (∀ s : ClientState, elapsedMs now s.lastHeartbeatSent < heartbeatInterval →
      (loop s now o).attempts = [] ∧ (loop s now o).sent = []) := by
  refine ⟨?_, ?_, ?_⟩
  · intro s op hnc hop
    cases op with
    | opConnect => rfl
    | opLoop now2 o2 =>
      have hcond : ¬ (s.connected = true ∧
          heartbeatInterval ≤ elapsedMs now2 s.lastHeartbeatSent) := by
        rintro ⟨h1, -⟩
        rw [hnc] at h1
        cases h1
      simp [runOp, loop, if_neg hcond]
    | opJoin t o2 => simp [runOp, joinChannel, hnc]
    | opBroadcast t e p o2 => simp [runOp, broadcast, hnc]
    | opEvent n2 ev o2 =>
      cases ev with
      | wsConnected => simp [isConnEvent] at hop
      | wsDisconnected => rfl
      | wsError m => rfl
      | wsOther => rfl
      | wsText p => exact (handleText_no_send s p).2.1
  · intro s hc hint
    have hcond : s.connected = true ∧
        heartbeatInterval ≤ elapsedMs now s.lastHeartbeatSent := ⟨hc, hint⟩
    obtain ⟨so, ko⟩ := o
    cases so <;> cases ko <;>
      simp [loop, sendHeartbeat, getNextMessageRef, hc, hint]
  · intro s hlt
    have hcond : ¬ (s.connected = true ∧
        heartbeatInterval ≤ elapsedMs now s.lastHeartbeatSent) := by
      rintro ⟨-, h2⟩
      omega
    simp [loop, if_neg hcond]

/-- C8 witness: nothing is transmitted by a join from the initial
(disconnected) state; from a connected state the tick at 30000 ms (last
heartbeat at 0) builds and transmits exactly the heartbeat envelope, and a
tick at 100 ms transmits nothing. -/
theorem c8_witness :
    (runOp (initState "k") (ClientOp.opJoin "t" ⟨true, true⟩)).2.2 = [] ∧
    (loop { initState "k" with connected := true } 30000 ⟨true, true⟩).attempts
      = [⟨"phoenix", "heartbeat", Json.jObj [],
          some (toString ({ initState "k" with
            connected := true } : ClientState).messageRefCounter), none⟩] ∧
    (loop { initState "k" with connected := true } 30000 ⟨true, true⟩).sent
      = [⟨"phoenix", "heartbeat", Json.jObj [],
          some (toString ({ initState "k" with
            connected := true } : ClientState).messageRefCounter), none⟩] ∧
    (loop { initState "k" with connected := true } 100 ⟨true, true⟩).sent = [] :=
  ⟨(c8_heartbeat_only_connected 30000 ⟨true, true⟩).1 (initState "k")
      (ClientOp.opJoin "t" ⟨true, true⟩) rfl rfl,
   ((c8_heartbeat_only_connected 30000 ⟨true, true⟩).2.1
      { initState "k" with connected := true } rfl (by decide)).1,
   (((c8_heartbeat_only_connected 30000 ⟨true, true⟩).2.1
      { initState "k" with connected := true } rfl (by decide)).2 rfl rfl).1,
   ((c8_heartbeat_only_connected 100 ⟨true, true⟩).2.2
      { initState "k" with connected := true } (by decide)).2⟩

/-! ### C10 -/

/-- C10: every send operation draws the next message reference before
serialization and transmission are attempted: when either fails, the
reference is consumed (the counter advances, the built envelope carries it)
but nothing is transmitted — for heartbeat, join and broadcast alike.
Consequently, over any epoch-pure run the references of the transmitted
envelopes are strictly increasing, and they need not be consecutive, as the
concrete three-broadcast trace with a failing middle send shows (references
"1" and "3" are transmitted, "2" is consumed). -/
theorem c10_refs_consumed_on_failure :
    (∀ (s : ClientState) (now : Nat) (o : SendOracle), s.connected = true →
      (o.serializeOk = false ∨ o.sendOk = false) →
      (sendHeartbeat s now o).sent = [] ∧
      (sendHeartbeat s now o).attempts.map Envelope.ref
        = [some (toString s.messageRefCounter)] ∧
      (sendHeartbeat s now o).state.messageRefCounter
        = (s.messageRefCounter + 1) % UINT_MOD) ∧
    (∀ (s : ClientState) (topic : String) (o : SendOracle), s.connected = true →
      (o.serializeOk = false ∨ o.sendOk = false) →
      (joinChannel s topic o).sent = [] ∧
      (joinChannel s topic o).attempts.map Envelope.ref
        = [some (toString s.messageRefCounter)] ∧
      (joinChannel s topic o).state.messageRefCounter
        = (s.messageRefCounter + 1) % UINT_MOD) ∧
    (∀ (s : ClientState) (topic event : String) (payload : Json) (o : SendOracle)
        (jr : String), s.connected = true →
      s.topicJoinRefs.lookup topic = some jr →
      (o.serializeOk = false ∨ o.sendOk = false) →
      (broadcast s topic event payload o).2.sent = [] ∧
      (broadcast s topic event payload o).2.attempts.map Envelope.ref
        = [some (toString s.messageRefCounter)] ∧
      (broadcast s topic event payload o).2.state.messageRefCounter
        = (s.messageRefCounter + 1) % UINT_MOD) ∧
    (∀ (s : ClientState) (ops : List ClientOp),
      (∀ op ∈ ops, isConnEvent op = false) →
      s.messageRefCounter < UINT_MOD →
      s.messageRefCounter + ops.length ≤ UINT_MOD →
      ∃ ns : List Nat, List.Pairwise (· < ·) ns ∧
        (runOps s ops).2.2.map Envelope.ref = ns.map (fun n => some (toString n))) ∧
    ((runOps { initState "k" with connected := true, topicJoinRefs := [("t", "0")] }
        [ClientOp.opBroadcast "t" "e" (Json.jObj []) ⟨true, true⟩,
         ClientOp.opBroadcast "t" "e" (Json.jObj []) ⟨true, false⟩,
         ClientOp.opBroadcast "t" "e" (Json.jObj []) ⟨true, true⟩]).2.2.map Envelope.ref
      = [some "1", some "3"]) := by
  refine ⟨?_, ?_, ?_, ?_, rfl⟩
  · intro s now o hc hfail
    obtain ⟨so, ko⟩ := o
    cases so <;> cases ko <;>
      simp_all [sendHeartbeat, getNextMessageRef, hc]
  · intro s topic o hc hfail
    obtain ⟨so, ko⟩ := o
    cases so <;> cases ko <;>
      simp_all [joinChannel, joinChannelImpl, getNextMessageRef, hc]
  · intro s topic event payload o jr hc hl hfail
    obtain ⟨so, ko⟩ := o
    cases so <;> cases ko <;>
      simp_all [broadcast, getNextMessageRef, hc, hl]
  · intro s ops hops hlt hbound
    obtain ⟨hr1, hr2, -⟩ := runOps_refs ops s hops hlt hbound
    have hsubmap := hr2.map Envelope.ref
    rw [hr1] at hsubmap
    obtain ⟨ns, hns_sub, hns_eq⟩ := List.sublist_map_iff.mp hsubmap
    exact ⟨ns, List.Pairwise.sublist hns_sub (List.pairwise_lt_range' _ _), hns_eq⟩

/-- C10 witness: a connected heartbeat whose serialization fails consumes
reference "1" and transmits nothing. -/
theorem c10_witness :
    (sendHeartbeat { initState "k" with connected := true } 5 ⟨false, true⟩).sent = [] ∧
    (sendHeartbeat { initState "k" with connected := true } 5 ⟨false, true⟩).attempts.map
        Envelope.ref
      = [some (toString ({ initState "k" with
          connected := true } : ClientState).messageRefCounter)] ∧
    (sendHeartbeat { initState "k" with connected := true } 5 ⟨false, true⟩).state.messageRefCounter
      = (({ initState "k" with
          connected := true } : ClientState).messageRefCounter + 1) % UINT_MOD :=
  c10_refs_consumed_on_failure.1 { initState "k" with connected := true } 5
    ⟨false, true⟩ rfl (Or.inl rfl)

end DewabModel
